import Mathlib

/-!
Verification of the USSE texture-sampling translator
(`shader/src/translator/texture.cpp`): `do_fetch_texture`,
`do_texture_queries` and `USSETranslatorVisitor::smp` are embedded as pure
Lean functions over a term model of the SPIR-V builder.  Every IR value the
builder would return is represented by a `Val` term; the translation state
records, in order, the instructions appended to the IR stream, the
operand-model `load`/`store` calls, the arguments of each invocation of the
fetch emitter, and the error log.
-/

namespace Vita3K

/-- Modelled from the spec: the operand element types (`usse_types.h` is not
part of the sources).  §3 lists `{F32, F16, C10, UNK}` for operands and §4.4
step 3 additionally requires integer kinds (the component type a sampler
binding may declare), represented here by the signed/unsigned 8/16/32-bit
integer kinds. -/
inductive DataType where
  | F32
  | F16
  | C10
  | INT8
  | UINT8
  | INT16
  | UINT16
  | INT32
  | UINT32
  | UNK
deriving DecidableEq, Repr

/-- Modelled from the spec: `is_integer_data_type` (declared outside the
sources) holds exactly on the integer kinds of §4.4 step 3. -/
def is_integer_data_type (t : DataType) : Bool :=
  match t with
  | DataType.INT8 => true
  | DataType.UINT8 => true
  | DataType.INT16 => true
  | DataType.UINT16 => true
  | DataType.INT32 => true
  | DataType.UINT32 => true
  | _ => false

/-- Modelled from the spec: register banks of §3 (`enum{PRIMARY_ATTRIBUTE,
TEMPORARY, ...}`); only the constructors used by `texture.cpp` are named,
plus a catch-all for the banks a decoder helper may produce. -/
inductive RegisterBank where
  | PRIMATTR
  | TEMP
  | SECATTR
  | OUTPUT
  | OTHER (n : Nat)
deriving DecidableEq, Repr

/-- A swizzle is a channel-selector list; `SWIZZLE_CHANNEL_4_DEFAULT` is the
identity selection of the four channels. -/
def Swizzle : Type := List Nat
deriving DecidableEq, Repr

def SWIZZLE_CHANNEL_4_DEFAULT : Swizzle := [0, 1, 2, 3]

/-- Modelled from the spec §3: an operand is a bank, a register index, an
element type and a swizzle. -/
structure Operand where
  bank : RegisterBank
  num : Nat
  type : DataType
  swizzle : Swizzle
deriving DecidableEq, Repr

/-- Term model of SPIR-V ids: every id the builder returns is represented by
the operation that produced it.  `noResult` is `spv::NoResult`,
`loaded op mask off` is a successful operand-model `load`, the remaining
constructors are the builder calls made by `texture.cpp`. -/
inductive Val where
  | noResult
  | loaded (op : Operand) (mask off : Nat)
  | floatConst (q : ℚ)
  | intConst (n : Int)
  | createLoad (v : Val)
  | vectorExtractDynamic (v i : Val)
  | unpackOne (v : Val) (t : DataType)
  | shuffleXY (v : Val)
  | compositeConstruct2 (x y : Val)
  | shuffleProj (v : Val) (pos : Nat)
  | imageSampleProjImplicitLod (tex coord : Val)
  | imageSampleImplicitLod (tex coord : Val)
  | imageSampleExplicitLodLod (tex coord lod : Val)
  | imageSampleExplicitLodGrad (tex coord ddx ddy : Val)
  | convertToInt (v : Val) (t : DataType)
deriving DecidableEq, Repr

/-- Holds exactly on the integer-reinterpretation op emitted by
`utils::convert_to_int`. -/
def isConvertToIntOp (v : Val) : Bool :=
  match v with
  | Val.convertToInt _ _ => true
  | _ => false

/-- Modelled from the spec §3: a sampler binding `{id, component_type,
component_count}` (`SamplerInfo` is declared outside the sources). -/
structure SamplerInfo where
  id : Val
  component_type : DataType
  component_count : Nat
deriving DecidableEq, Repr

/-- The error-log events raised by `texture.cpp` (`LOG_ERROR` calls). -/
inductive LogEvent where
  | lodModeNotImplemented
  | samplerNotExist
  | coordNotLoaded
  | unsupportedSbMode (m : Nat)
deriving DecidableEq, Repr

/-- Arguments of one invocation of `do_fetch_texture`, recorded so that the
dispatch from the handlers into the fetch emitter can be inspected. -/
structure FetchArgs where
  tex : Val
  coordVal : Val
  coordType : DataType
  destType : DataType
  lodMode : Nat
  extra1 : Val
  extra2 : Val
deriving DecidableEq, Repr

/-- Translation state: the IR instruction stream under construction (`ops`),
the operand-model `load` calls `(operand, mask, secondary offset)`, the
operand-model `store` calls `(operand, value, mask)`, the recorded fetch
invocations and the error log.  All lists grow at the back, in program
order. -/
structure TransState where
  ops : List Val
  loads : List (Operand × Nat × Nat)
  stores : List (Operand × Val × Nat)
  fetches : List FetchArgs
  logs : List LogEvent
deriving DecidableEq, Repr

/-- The empty translation state. -/
def initState : TransState :=
  { ops := [], loads := [], stores := [], fetches := [], logs := [] }

/-- Modelled from the spec §4.2 and §4.3: the collaborators of `texture.cpp`
that are declared outside the sources — the sampler table
(`m_spirv_params.samplers`), the operand model's `load` success predicate,
the builder introspection (`isPointer`, `getNumComponents`), the decoder
helpers `decode_src0`/`decode_src12` and the `m_second_program` flag.  They
are kept abstract; the theorems hold for every such environment. -/
structure Ctx where
  samplers : Nat → Option SamplerInfo
  loadOk : Operand → Nat → Nat → Bool
  isPointer : Val → Bool
  getNumComponents : Val → Nat
  decode_src0 : Nat → Nat → Nat → Bool → Nat → Bool → Operand
  decode_src12 : Nat → Nat → Nat → Bool → Nat → Bool → Operand
  second_program : Bool

/-- Operand-model `load` (§4.2): records the call and yields the loaded
value, or `noResult` when the operand cannot be loaded. -/
def loadOperand (ctx : Ctx) (st : TransState) (op : Operand) (mask off : Nat) :
    Val × TransState :=
  (if ctx.loadOk op mask off then Val.loaded op mask off else Val.noResult,
   { st with loads := st.loads ++ [(op, mask, off)] })

/-- Operand-model `store` (§4.2): records the destination write. -/
def storeOperand (st : TransState) (op : Operand) (v : Val) (mask : Nat) :
    TransState :=
  { st with stores := st.stores ++ [(op, v, mask)] }

/-- Appends one error-log event. -/
def logEvent (st : TransState) (e : LogEvent) : TransState :=
  { st with logs := st.logs ++ [e] }

/-! ## The fetch emitter, `do_fetch_texture` (texture.cpp lines 34-72) -/

/-- Lines 37-49: the coordinate id handed to the sampling op — unpacked and
truncated to two channels when its source type is not F32, then loaded once
more when it is still a pointer. -/
def fetchUnpackedCoord (ctx : Ctx) (coord : Val × DataType) : Val :=
  if coord.2 ≠ DataType.F32 then
    let c := Val.unpackOne
      (Val.vectorExtractDynamic (Val.createLoad coord.1) (Val.intConst 0)) coord.2
    if 2 < ctx.getNumComponents c then Val.shuffleXY c else c
  else coord.1

/-- Lines 37-45: the instructions the coordinate conversion appends. -/
def fetchUnpackOps (ctx : Ctx) (coord : Val × DataType) : List Val :=
  if coord.2 ≠ DataType.F32 then
    let l := Val.createLoad coord.1
    let e := Val.vectorExtractDynamic l (Val.intConst 0)
    let c := Val.unpackOne e coord.2
    if 2 < ctx.getNumComponents c then [l, e, c, Val.shuffleXY c] else [l, e, c]
  else []

/-- Lines 47-49: dereference the coordinate when it is still a pointer. -/
def fetchCoordId (ctx : Ctx) (coord : Val × DataType) : Val :=
  let c := fetchUnpackedCoord ctx coord
  if ctx.isPointer c then Val.createLoad c else c

/-- The instructions appended up to and including the pointer dereference. -/
def fetchCoordOps (ctx : Ctx) (coord : Val × DataType) : List Val :=
  fetchUnpackOps ctx coord ++
    (if ctx.isPointer (fetchUnpackedCoord ctx coord)
      then [Val.createLoad (fetchUnpackedCoord ctx coord)] else [])

/-- Lines 53-66: opcode selection.  With no LOD operand (`extra1` is
`spv::NoResult`) the implicit-LOD variant is emitted, projective when
`lod_mode = 4`; with an LOD operand, `lod_mode = 2` gives the explicit-LOD
variant with `extra1` as scalar LOD and `lod_mode = 3` the explicit-gradient
variant with `(extra1, extra2)`; any other combination leaves
`image_sample = spv::NoResult`. -/
def fetchSampleVal (tex coord_id : Val) (lod_mode : Nat) (extra1 extra2 : Val) :
    Val :=
  if extra1 = Val.noResult then
    if lod_mode = 4 then Val.imageSampleProjImplicitLod (Val.createLoad tex) coord_id
    else Val.imageSampleImplicitLod (Val.createLoad tex) coord_id
  else
    if lod_mode = 2 then Val.imageSampleExplicitLodLod (Val.createLoad tex) coord_id extra1
    else if lod_mode = 3 then
      Val.imageSampleExplicitLodGrad (Val.createLoad tex) coord_id extra1 extra2
    else Val.noResult

/-- Lines 53-66: the instructions the opcode selection appends (each taken
branch first loads the texture handle, then emits the sampling op; the
defensive dead branch emits nothing). -/
def fetchSampleOps (tex coord_id : Val) (lod_mode : Nat) (extra1 extra2 : Val) :
    List Val :=
  if extra1 = Val.noResult then
    [Val.createLoad tex, fetchSampleVal tex coord_id lod_mode extra1 extra2]
  else if lod_mode = 2 ∨ lod_mode = 3 then
    [Val.createLoad tex, fetchSampleVal tex coord_id lod_mode extra1 extra2]
  else []

/-- Embeds `USSETranslatorVisitor::do_fetch_texture` (lines 34-72).  Returns the
resulting value and the state extended with the appended instructions; the
invocation itself is recorded in `fetches`.  Lines 68-69 reinterpret the raw
sample into the destination representation when `dest_type` is an integer
kind. -/
def do_fetch_texture (ctx : Ctx) (st : TransState) (tex : Val)
    (coord : Val × DataType) (dest_type : DataType) (lod_mode : Nat)
    (extra1 extra2 : Val) : Val × TransState :=
  let coord_id := fetchCoordId ctx coord
  let sampled := fetchSampleVal tex coord_id lod_mode extra1 extra2
  let newOps := fetchCoordOps ctx coord ++
    fetchSampleOps tex coord_id lod_mode extra1 extra2 ++
    (if is_integer_data_type dest_type then [Val.convertToInt sampled dest_type] else [])
  (if is_integer_data_type dest_type then Val.convertToInt sampled dest_type else sampled,
   { st with
      ops := st.ops ++ newOps,
      fetches := st.fetches ++
        [⟨tex, coord.1, coord.2, dest_type, lod_mode, extra1, extra2⟩] })

/-! ## The SMP handler (texture.cpp lines 104-248) -/

/-- Lines 136-137 and 142: source-0 (the coordinate), with its element type
selected by `src0_type` and the default identity swizzle. -/
def smpSrc0 (ctx : Ctx) (src0_n src0_bank src0_ext src0_type : Nat) : Operand :=
  { ctx.decode_src0 src0_n src0_bank src0_ext true 8 ctx.second_program with
    type := if src0_type = 0 then DataType.F32
      else if src0_type = 1 then DataType.F16 else DataType.C10,
    swizzle := SWIZZLE_CHANNEL_4_DEFAULT }

/-- Lines 139-141: source-1 (the sampler index), default identity swizzle. -/
def smpSrc1 (ctx : Ctx) (src1_n src1_bank src1_ext : Nat) : Operand :=
  { ctx.decode_src12 src1_n src1_bank src1_ext true 8 ctx.second_program with
    swizzle := SWIZZLE_CHANNEL_4_DEFAULT }

/-- Lines 203-204: source-2 (LOD / gradients), its type copied from
source-0. -/
def smpSrc2 (ctx : Ctx) (src2_n src2_bank src2_ext : Nat) (ty : DataType) :
    Operand :=
  { ctx.decode_src12 src2_n src2_bank src2_ext true 8 ctx.second_program with
    type := ty }

/-- Lines 152-157: `tb_dest_fmt`, the 4-entry destination-format table
indexed by `fconv_type`. -/
def tb_dest_fmt (fconv_type : Nat) : DataType :=
  match fconv_type with
  | 0 => DataType.F32
  | 1 => DataType.UNK
  | 2 => DataType.F16
  | _ => DataType.F32

/-- Lines 162-165: the resolved destination element type — the table entry,
or the bound sampler's component type when that entry is UNK. -/
def smpDestType (fconv_type : Nat) (sampler : SamplerInfo) : DataType :=
  if tb_dest_fmt fconv_type = DataType.UNK then sampler.component_type
  else tb_dest_fmt fconv_type

/-- Lines 160-165: the destination operand. -/
def smpDest (dest_use_pa : Bool) (dest_n fconv_type : Nat)
    (sampler : SamplerInfo) : Operand :=
  { bank := if dest_use_pa then RegisterBank.PRIMATTR else RegisterBank.TEMP,
    num := dest_n,
    type := smpDestType fconv_type sampler,
    swizzle := SWIZZLE_CHANNEL_4_DEFAULT }

/-- Lines 170-175: the coordinate component mask from the 1-based
dimensionality (3 → 0b0111, 1 → 0b0001, default 0b0011). -/
def smpCoordMask (dim1 : Nat) : Nat :=
  if dim1 = 3 then 7 else if dim1 = 1 then 1 else 3

/-- Lines 202-226: conditional decode and load of the LOD / gradient extras
from source-2.  `dim2` is the dimensionality after the 1D → 2D coordinate
synthesis. -/
def smpLoadExtras (ctx : Ctx) (src2 : Operand) (lod_mode dim2 : Nat)
    (st : TransState) : (Val × Val) × TransState :=
  if lod_mode ≠ 0 then
    if lod_mode = 2 then
      let r := loadOperand ctx st src2 1 0
      ((r.1, Val.noResult), r.2)
    else if lod_mode = 3 then
      match dim2 with
      | 2 =>
        let r1 := loadOperand ctx st src2 3 0
        let r2 := loadOperand ctx r1.2 src2 12 0
        ((r1.1, r2.1), r2.2)
      | 3 =>
        let r1 := loadOperand ctx st src2 7 0
        let r2 := loadOperand ctx r1.2 src2 7 1
        ((r1.1, r2.1), r2.2)
      | _ => ((Val.noResult, Val.noResult), st)
    else ((Val.noResult, Val.noResult), st)
  else ((Val.noResult, Val.noResult), st)

/-- Lines 180-247: the body of `smp` after the sampler has been resolved.
Loads the coordinate (aborting with `false` on a failed load), synthesizes
the zero Y component for 1D samples (lines 191-195), loads the extras,
invokes the fetch emitter with the coordinate typed F32 and destination
type F32 (line 228), and stores the result under the sideband-mode switch
(lines 230-245). -/
def smpCore (ctx : Ctx) (sampler : SamplerInfo) (src0 src2 dest : Operand)
    (dim1 lod_mode sb_mode : Nat) (st : TransState) : Bool × TransState :=
  let cr := loadOperand ctx st src0 (smpCoordMask dim1) 0
  if cr.1 = Val.noResult then
    (false, logEvent cr.2 LogEvent.coordNotLoaded)
  else
    let coord2 := if dim1 = 1
      then Val.compositeConstruct2 cr.1 (Val.floatConst 0) else cr.1
    let st2 := if dim1 = 1
      then { cr.2 with ops := cr.2.ops ++ [coord2] } else cr.2
    let dim2 := if dim1 = 1 then 2 else dim1
    let er := smpLoadExtras ctx src2 lod_mode dim2 st2
    let fr := do_fetch_texture ctx er.2 sampler.id (coord2, DataType.F32)
      DataType.F32 lod_mode er.1.1 er.1.2
    let dest_mask := (1 <<< sampler.component_count) - 1
    match sb_mode with
    | 0 => (true, storeOperand fr.2 dest fr.1 dest_mask)
    | 1 => (true, storeOperand fr.2 dest fr.1 dest_mask)
    | 3 => (true, storeOperand fr.2 dest fr.1 dest_mask)
    | m => (true, logEvent fr.2 (LogEvent.unsupportedSbMode m))

/-- Embeds `USSETranslatorVisitor::smp` (lines 104-248).  Lines 129-132 reject the
unimplemented LOD modes (returning `true` without emitting anything); lines
145-148 reject an unbound sampler the same way. -/
def smp (ctx : Ctx)
    (pred skipinv nosched syncstart minpack : Nat)
    (src0_ext src1_ext src2_ext : Nat)
    (fconv_type mask_count dim lod_mode : Nat)
    (dest_use_pa : Bool)
    (sb_mode src0_type src0_bank drc_sel src1_bank src2_bank : Nat)
    (dest_n src0_n src1_n src2_n : Nat)
    (st : TransState) : Bool × TransState :=
  if lod_mode ≠ 0 ∧ lod_mode ≠ 2 ∧ lod_mode ≠ 3 then
    (true, logEvent st LogEvent.lodModeNotImplemented)
  else
    match ctx.samplers (smpSrc1 ctx src1_n src1_bank src1_ext).num with
    | none => (true, logEvent st LogEvent.samplerNotExist)
    | some sampler =>
      smpCore ctx sampler
        (smpSrc0 ctx src0_n src0_bank src0_ext src0_type)
        (smpSrc2 ctx src2_n src2_bank src2_ext
          (smpSrc0 ctx src0_n src0_bank src0_ext src0_type).type)
        (smpDest dest_use_pa dest_n fconv_type sampler)
        (dim + 1) lod_mode sb_mode st

/-! ## The non-dependent texture-query handler (texture.cpp lines 74-102) -/

/-- Modelled from the spec §4.6: one pending query record
(`NonDependentTextureQueryCallInfo`, declared outside the sources) — the
sampler handle, the coordinate with its source type, the explicit store type
and the hint component type, the projection position (negative when absent),
the destination offset and the declared component count. -/
structure TextureQueryInfo where
  sampler : Val
  coord : Val × DataType
  store_type : DataType
  component_type : DataType
  prod_pos : Int
  dest_offset : Nat
  component_count : Nat
deriving DecidableEq, Repr

/-- Lines 80-84: the resolved store type — the explicit store type, or the
hint component type when the former is UNK. -/
def queryStoreType (q : TextureQueryInfo) : DataType :=
  if q.store_type = DataType.UNK then q.component_type else q.store_type

/-- One iteration of the loop in `do_texture_queries` (lines 79-101). -/
def do_texture_query_single (ctx : Ctx) (st : TransState)
    (q : TextureQueryInfo) : TransState :=
  let coord_inst := if 0 ≤ q.prod_pos
    then (Val.shuffleProj (Val.createLoad q.coord.1) q.prod_pos.toNat, q.coord.2)
    else q.coord
  let st1 := if 0 ≤ q.prod_pos
    then { st with ops := st.ops ++
      [Val.createLoad q.coord.1,
       Val.shuffleProj (Val.createLoad q.coord.1) q.prod_pos.toNat] }
    else st
  let proj := 0 ≤ q.prod_pos
  let fr := do_fetch_texture ctx st1 q.sampler coord_inst (queryStoreType q)
    (if proj then 4 else 0) Val.noResult Val.noResult
  storeOperand fr.2
    { bank := RegisterBank.PRIMATTR, num := q.dest_offset,
      type := queryStoreType q, swizzle := SWIZZLE_CHANNEL_4_DEFAULT }
    fr.1 ((1 <<< q.component_count) - 1)

/-- Embeds `USSETranslatorVisitor::do_texture_queries` (lines 74-102). -/
def do_texture_queries (ctx : Ctx) (st : TransState)
    (qs : List TextureQueryInfo) : TransState :=
  qs.foldl (do_texture_query_single ctx) st

/-! ## Driver loop and argument records -/

/-- The full argument record of one decoded SMP instruction, in the order of
the C++ signature. -/
structure SmpArgs where
  pred : Nat
  skipinv : Nat
  nosched : Nat
  syncstart : Nat
  minpack : Nat
  src0_ext : Nat
  src1_ext : Nat
  src2_ext : Nat
  fconv_type : Nat
  mask_count : Nat
  dim : Nat
  lod_mode : Nat
  dest_use_pa : Bool
  sb_mode : Nat
  src0_type : Nat
  src0_bank : Nat
  drc_sel : Nat
  src1_bank : Nat
  src2_bank : Nat
  dest_n : Nat
  src0_n : Nat
  src1_n : Nat
  src2_n : Nat
deriving DecidableEq, Repr

/-- The handler `smp` applied to a bundled argument record. -/
def smpA (ctx : Ctx) (a : SmpArgs) (st : TransState) : Bool × TransState :=
  smp ctx a.pred a.skipinv a.nosched a.syncstart a.minpack a.src0_ext
    a.src1_ext a.src2_ext a.fconv_type a.mask_count a.dim a.lod_mode
    a.dest_use_pa a.sb_mode a.src0_type a.src0_bank a.drc_sel a.src1_bank
    a.src2_bank a.dest_n a.src0_n a.src1_n a.src2_n st

/-- Modelled from the spec: the per-instruction driver loop is not part of
the sources; §7 states that all errors are local to one instruction and none
unwind the whole compilation, so the driver invokes the handler for each
decoded instruction in program order and continues regardless of the
per-instruction success flag. -/
def translateProgram (ctx : Ctx) (il : List SmpArgs) (st : TransState) :
    TransState :=
  il.foldl (fun s a => (smpA ctx a s).2) st

/-! ## Specification-side observations -/

/-- The observable shape of a sampling instruction: which variant was
emitted and which extra operands it carries. -/
inductive SampleShape where
  | projImplicit
  | implicit
  | explicitLod (lod : Val)
  | explicitGrad (ddx ddy : Val)
deriving DecidableEq, Repr

/-- Extracts the shape of a sampling instruction; `none` on every
non-sampling instruction. -/
def sampleShape (v : Val) : Option SampleShape :=
  match v with
  | Val.imageSampleProjImplicitLod _ _ => some SampleShape.projImplicit
  | Val.imageSampleImplicitLod _ _ => some SampleShape.implicit
  | Val.imageSampleExplicitLodLod _ _ lod => some (SampleShape.explicitLod lod)
  | Val.imageSampleExplicitLodGrad _ _ ddx ddy =>
    some (SampleShape.explicitGrad ddx ddy)
  | _ => none

/-- The spec's opcode-selection table (§4.4 step 2): the sampling
instructions one fetch call must append, selected by
`(extra1 present?, lod_mode)`. -/
def specFetchShape (lod_mode : Nat) (extra1 extra2 : Val) : List SampleShape :=
  if extra1 = Val.noResult then
    if lod_mode = 4 then [SampleShape.projImplicit] else [SampleShape.implicit]
  else
    if lod_mode = 2 then [SampleShape.explicitLod extra1]
    else if lod_mode = 3 then [SampleShape.explicitGrad extra1 extra2]
    else []

/-! ## Concrete test environments -/

/-- A concrete operand resolution used by the test environments: bank TEMP,
register index as decoded, type F32, identity swizzle. -/
def opW (n : Nat) : Operand :=
  { bank := RegisterBank.TEMP, num := n, type := DataType.F32,
    swizzle := SWIZZLE_CHANNEL_4_DEFAULT }

/-- A concrete float sampler binding with three components. -/
def samplerW : SamplerInfo :=
  { id := Val.intConst 7, component_type := DataType.F16, component_count := 3 }

/-- A concrete sampler binding whose component type is an integer kind. -/
def samplerInt : SamplerInfo :=
  { id := Val.intConst 7, component_type := DataType.UINT8, component_count := 4 }

/-- A concrete environment: sampler index 5 is bound to `samplerW`, every
operand load succeeds, no id is a pointer. -/
def ctxW : Ctx :=
  { samplers := fun i => if i = 5 then some samplerW else none,
    loadOk := fun _ _ _ => true,
    isPointer := fun _ => false,
    getNumComponents := fun _ => 4,
    decode_src0 := fun n _ _ _ _ _ => opW n,
    decode_src12 := fun n _ _ _ _ _ => opW n,
    second_program := false }

/-- Variant of `ctxW` with sampler index 5 bound to the integer-typed `samplerInt`. -/
def ctxInt : Ctx :=
  { ctxW with samplers := fun i => if i = 5 then some samplerInt else none }

/-- Variant of `ctxW` with an empty sampler table. -/
def ctxNoSampler : Ctx :=
  { ctxW with samplers := fun _ => none }

/-- Variant of `ctxW` in which every operand load fails. -/
def ctxNoLoad : Ctx :=
  { ctxW with loadOk := fun _ _ _ => false }

/-- A concrete pending texture query whose explicit store type is the UNK
sentinel and whose hint component type is F16. -/
def queryW : TextureQueryInfo :=
  { sampler := Val.intConst 8, coord := (Val.intConst 9, DataType.F32),
    store_type := DataType.UNK, component_type := DataType.F16,
    prod_pos := -1, dest_offset := 4, component_count := 2 }

/-- A concrete SMP instruction: 2D sample, implicit LOD, sampler index 5. -/
def argsW : SmpArgs :=
  { pred := 0, skipinv := 0, nosched := 0, syncstart := 0, minpack := 0,
    src0_ext := 0, src1_ext := 0, src2_ext := 0, fconv_type := 0,
    mask_count := 0, dim := 1, lod_mode := 0, dest_use_pa := true,
    sb_mode := 0, src0_type := 0, src0_bank := 0, drc_sel := 0,
    src1_bank := 0, src2_bank := 0, dest_n := 9, src0_n := 4, src1_n := 5,
    src2_n := 6 }

/-! ## Helper lemmas -/

theorem sampleShape_fetchCoordOps (ctx : Ctx) (coord : Val × DataType) :
    (fetchCoordOps ctx coord).filterMap sampleShape = [] := by
  unfold fetchCoordOps fetchUnpackOps
  by_cases h1 : coord.2 ≠ DataType.F32 <;>
    by_cases h2 : ctx.isPointer (fetchUnpackedCoord ctx coord) = true <;>
      by_cases h3 : 2 < ctx.getNumComponents (Val.unpackOne
        (Val.vectorExtractDynamic (Val.createLoad coord.1) (Val.intConst 0))
        coord.2) <;>
        simp [h1, h2, h3, sampleShape]

theorem sampleShape_fetchSampleOps (tex coord_id : Val) (lod_mode : Nat)
    (extra1 extra2 : Val) :
    (fetchSampleOps tex coord_id lod_mode extra1 extra2).filterMap sampleShape
      = specFetchShape lod_mode extra1 extra2 := by
  unfold fetchSampleOps fetchSampleVal specFetchShape
  by_cases h1 : extra1 = Val.noResult
  · by_cases h4 : lod_mode = 4 <;> simp [h1, h4, sampleShape]
  · by_cases h2 : lod_mode = 2
    · simp [h1, h2, sampleShape]
    · by_cases h3 : lod_mode = 3 <;> simp [h1, h2, h3, sampleShape]

theorem isConvertToIntOp_fetchSampleVal (tex coord_id : Val) (lod_mode : Nat)
    (extra1 extra2 : Val) :
    isConvertToIntOp (fetchSampleVal tex coord_id lod_mode extra1 extra2)
      = false := by
  unfold fetchSampleVal
  split
  · split <;> simp [isConvertToIntOp]
  · split
    · simp [isConvertToIntOp]
    · split <;> simp [isConvertToIntOp]

theorem smpLoadExtras_ops (ctx : Ctx) (src2 : Operand) (lod_mode dim2 : Nat)
    (st : TransState) :
    ((smpLoadExtras ctx src2 lod_mode dim2 st).2).ops = st.ops := by
  unfold smpLoadExtras
  split
  · split
    · simp [loadOperand]
    · split
      · split <;> simp [loadOperand]
      · simp
  · simp

theorem smpLoadExtras_stores (ctx : Ctx) (src2 : Operand) (lod_mode dim2 : Nat)
    (st : TransState) :
    ((smpLoadExtras ctx src2 lod_mode dim2 st).2).stores = st.stores := by
  unfold smpLoadExtras
  split
  · split
    · simp [loadOperand]
    · split
      · split <;> simp [loadOperand]
      · simp
  · simp

theorem smpLoadExtras_fetches (ctx : Ctx) (src2 : Operand) (lod_mode dim2 : Nat)
    (st : TransState) :
    ((smpLoadExtras ctx src2 lod_mode dim2 st).2).fetches = st.fetches := by
  unfold smpLoadExtras
  split
  · split
    · simp [loadOperand]
    · split
      · split <;> simp [loadOperand]
      · simp
  · simp

theorem smpLoadExtras_logs (ctx : Ctx) (src2 : Operand) (lod_mode dim2 : Nat)
    (st : TransState) :
    ((smpLoadExtras ctx src2 lod_mode dim2 st).2).logs = st.logs := by
  unfold smpLoadExtras
  split
  · split
    · simp [loadOperand]
    · split
      · split <;> simp [loadOperand]
      · simp
  · simp

theorem isConvertToIntOp_fetchCoordOps (ctx : Ctx) (coord : Val × DataType) :
    (fetchCoordOps ctx coord).filter isConvertToIntOp = [] := by
  unfold fetchCoordOps fetchUnpackOps
  by_cases h1 : coord.2 ≠ DataType.F32 <;>
    by_cases h2 : ctx.isPointer (fetchUnpackedCoord ctx coord) = true <;>
      by_cases h3 : 2 < ctx.getNumComponents (Val.unpackOne
        (Val.vectorExtractDynamic (Val.createLoad coord.1) (Val.intConst 0))
        coord.2) <;>
        simp [h1, h2, h3, isConvertToIntOp]

theorem isConvertToIntOp_createLoad (v : Val) :
    isConvertToIntOp (Val.createLoad v) = false := rfl

theorem isConvertToIntOp_compositeConstruct2 (x y : Val) :
    isConvertToIntOp (Val.compositeConstruct2 x y) = false := rfl

theorem isConvertToIntOp_fetchSampleOps (tex coord_id : Val) (lod_mode : Nat)
    (extra1 extra2 : Val) :
    (fetchSampleOps tex coord_id lod_mode extra1 extra2).filter
      isConvertToIntOp = [] := by
  unfold fetchSampleOps
  split
  · simp [isConvertToIntOp_createLoad, isConvertToIntOp_fetchSampleVal]
  · split
    · simp [isConvertToIntOp_createLoad, isConvertToIntOp_fetchSampleVal]
    · simp

theorem smpCore_fetch_f32 (ctx : Ctx) (sampler : SamplerInfo)
    (src0 src2 dest : Operand) (dim1 lod_mode sb_mode : Nat) (st : TransState) :
    (((smpCore ctx sampler src0 src2 dest dim1 lod_mode sb_mode st).2).fetches.drop
        st.fetches.length).all (fun f => decide (f.destType = DataType.F32)) = true ∧
    (((smpCore ctx sampler src0 src2 dest dim1 lod_mode sb_mode st).2).ops.drop
        st.ops.length).filter isConvertToIntOp = [] := by
  by_cases hd : dim1 = 1
  · subst hd
    unfold smpCore
    by_cases hl : ctx.loadOk src0 (smpCoordMask 1) 0
    · simp only [loadOperand, hl, if_true]
      split
      · next h => simp at h
      · split <;>
          simp [do_fetch_texture, storeOperand, logEvent, smpLoadExtras_ops,
            smpLoadExtras_fetches, is_integer_data_type, List.append_assoc,
            List.drop_left, List.filter_append, isConvertToIntOp_createLoad,
            isConvertToIntOp_compositeConstruct2, isConvertToIntOp_fetchCoordOps,
            isConvertToIntOp_fetchSampleOps, List.drop_length]
    · simp [loadOperand, hl, logEvent, List.drop_length]
  · unfold smpCore
    by_cases hl : ctx.loadOk src0 (smpCoordMask dim1) 0
    · simp only [loadOperand, hl, if_true, hd, if_false]
      split
      · next h => simp at h
      · split <;>
          simp [hd, do_fetch_texture, storeOperand, logEvent, smpLoadExtras_ops,
            smpLoadExtras_fetches, is_integer_data_type, List.append_assoc,
            List.drop_left, List.filter_append, isConvertToIntOp_createLoad,
            isConvertToIntOp_compositeConstruct2, isConvertToIntOp_fetchCoordOps,
            isConvertToIntOp_fetchSampleOps, List.drop_length]
    · simp [loadOperand, hl, logEvent, List.drop_length]

/-! ## Claim theorems -/

/-- C2: for every call to the fetch emitter, the sampling instruction
appended to the IR stream is selected by `(extra1 present?, lod_mode)`
exactly as the spec's table states: no LOD operand and `lod_mode = 4` gives
the projective implicit-LOD sample, no LOD operand otherwise the plain
implicit-LOD sample, an LOD operand with `lod_mode = 2` the explicit-LOD
sample carrying `extra1` as scalar LOD, and an LOD operand with
`lod_mode = 3` the explicit-gradient sample carrying exactly
`(extra1, extra2)`. -/
theorem C2_fetch_opcode_selection (ctx : Ctx) (st : TransState) (tex : Val)
    (coord : Val × DataType) (dest_type : DataType) (lod_mode : Nat)
    (extra1 extra2 : Val) :
    ((do_fetch_texture ctx st tex coord dest_type lod_mode extra1 extra2).2.ops.filterMap
        sampleShape)
      = st.ops.filterMap sampleShape ++ specFetchShape lod_mode extra1 extra2 := by
  unfold do_fetch_texture
  split <;>
    simp [List.filterMap_append, sampleShape_fetchCoordOps,
      sampleShape_fetchSampleOps, sampleShape]

/-- C3: an SMP instruction whose decoded `lod_mode` is the unimplemented
BIAS mode (1) reports the unsupported feature, appends no IR instruction,
performs no load or store, and still returns `true` to the caller. -/
theorem C3_bias_lod_noop (ctx : Ctx)
    (pred skipinv nosched syncstart minpack src0_ext src1_ext src2_ext
      fconv_type mask_count dim : Nat) (dest_use_pa : Bool)
    (sb_mode src0_type src0_bank drc_sel src1_bank src2_bank
      dest_n src0_n src1_n src2_n : Nat) (st : TransState) :
    smp ctx pred skipinv nosched syncstart minpack src0_ext src1_ext src2_ext
        fconv_type mask_count dim 1 dest_use_pa sb_mode src0_type src0_bank
        drc_sel src1_bank src2_bank dest_n src0_n src1_n src2_n st
      = (true, { st with logs := st.logs ++ [LogEvent.lodModeNotImplemented] }) := by
  simp [smp, logEvent]

/-- C4: an SMP instruction whose decoded sampler index is absent from the
sampler table logs the unresolved resource, appends no IR instruction,
leaves the destination unwritten, and returns `true` (compilation
continues). -/
theorem C4_unbound_sampler (ctx : Ctx)
    (pred skipinv nosched syncstart minpack src0_ext src1_ext src2_ext
      fconv_type mask_count dim lod_mode : Nat) (dest_use_pa : Bool)
    (sb_mode src0_type src0_bank drc_sel src1_bank src2_bank
      dest_n src0_n src1_n src2_n : Nat) (st : TransState)
    (hl : lod_mode = 0 ∨ lod_mode = 2 ∨ lod_mode = 3)
    (hs : ctx.samplers (smpSrc1 ctx src1_n src1_bank src1_ext).num = none) :
    smp ctx pred skipinv nosched syncstart minpack src0_ext src1_ext src2_ext
        fconv_type mask_count dim lod_mode dest_use_pa sb_mode src0_type
        src0_bank drc_sel src1_bank src2_bank dest_n src0_n src1_n src2_n st
      = (true, { st with logs := st.logs ++ [LogEvent.samplerNotExist] }) := by
  rcases hl with rfl | rfl | rfl <;> simp [smp, hs, logEvent]

/-- C1, counterexample: an SMP instruction whose `fconv_type` selects the
UNK table entry while the bound sampler declares the integer component type
UINT8 resolves its destination type to an integer kind, yet the recorded
fetch-emitter invocation carries destination type F32 and no
integer-reinterpretation instruction is emitted — the handler does not pass
the resolved destination type to the fetch emitter. -/
theorem C1_counterexample :
    is_integer_data_type (smpDestType 1 samplerInt) = true ∧
    (smp ctxInt 0 0 0 0 0 0 0 0 1 0 1 0 true 0 0 0 0 0 0 9 4 5 6
        initState).2.fetches.map FetchArgs.destType = [DataType.F32] ∧
    (smp ctxInt 0 0 0 0 0 0 0 0 1 0 1 0 true 0 0 0 0 0 0 9 4 5 6
        initState).2.ops.filter isConvertToIntOp = [] := by
  decide

/-- C1, amended: for every SMP instruction that reaches the fetch step, the
handler invokes the fetch emitter with the destination type fixed to F32 —
not with the resolved destination element type — so the emitter's integer
reinterpretation never fires on the SMP path and no conversion instruction
is appended, whatever the resolved destination type is. -/
theorem C1_smp_fetch_fixed_f32 (ctx : Ctx)
    (pred skipinv nosched syncstart minpack src0_ext src1_ext src2_ext
      fconv_type mask_count dim lod_mode : Nat) (dest_use_pa : Bool)
    (sb_mode src0_type src0_bank drc_sel src1_bank src2_bank
      dest_n src0_n src1_n src2_n : Nat) (st : TransState) :
    ((smp ctx pred skipinv nosched syncstart minpack src0_ext src1_ext
          src2_ext fconv_type mask_count dim lod_mode dest_use_pa sb_mode
          src0_type src0_bank drc_sel src1_bank src2_bank dest_n src0_n
          src1_n src2_n st).2.fetches.drop st.fetches.length).all
        (fun f => decide (f.destType = DataType.F32)) = true ∧
    ((smp ctx pred skipinv nosched syncstart minpack src0_ext src1_ext
          src2_ext fconv_type mask_count dim lod_mode dest_use_pa sb_mode
          src0_type src0_bank drc_sel src1_bank src2_bank dest_n src0_n
          src1_n src2_n st).2.ops.drop st.ops.length).filter
        isConvertToIntOp = [] := by
  unfold smp
  split
  · simp [logEvent, List.drop_length]
  · split
    · simp [logEvent, List.drop_length]
    · exact smpCore_fetch_f32 _ _ _ _ _ _ _ _ _

/-- C7: whenever the UNK sentinel is selected as destination element type —
in SMP when `fconv_type` picks the UNK table entry, in the query handler
when the explicit store type is UNK — the resolved destination type equals
the bound sampler's (respectively the query record's) declared component
type and is itself not UNK, and the query handler hands exactly that
resolved type to the fetch emitter. -/
theorem C7_unk_type_resolution (ctx : Ctx) (st : TransState)
    (fconv_type : Nat) (s : SamplerInfo) (q : TextureQueryInfo)
    (h1 : tb_dest_fmt fconv_type = DataType.UNK)
    (h2 : s.component_type ≠ DataType.UNK)
    (h3 : q.store_type = DataType.UNK)
    (h4 : q.component_type ≠ DataType.UNK) :
    smpDestType fconv_type s = s.component_type ∧
    smpDestType fconv_type s ≠ DataType.UNK ∧
    queryStoreType q = q.component_type ∧
    queryStoreType q ≠ DataType.UNK ∧
    ((do_texture_query_single ctx st q).fetches.drop st.fetches.length).all
      (fun f => decide (f.destType = q.component_type)) = true := by
  refine ⟨by simp [smpDestType, h1], by simp [smpDestType, h1, h2], ?_, ?_, ?_⟩
  · simp [queryStoreType, h3]
  · simp [queryStoreType, h3, h4]
  · unfold do_texture_query_single
    by_cases hp : 0 ≤ q.prod_pos <;>
      simp [hp, do_fetch_texture, storeOperand, queryStoreType, h3,
        List.drop_left]

/-- C9: an SMP instruction whose coordinate load yields the no-result
sentinel stops early — the handler returns `false` having appended no IR
instruction, no fetch and no store (the destination stays unwritten), with
only the load attempt and the error logged — and the driver loop continues
with the remaining instructions of the program. -/
theorem C9_coord_load_failure (ctx : Ctx) (a : SmpArgs) (rest : List SmpArgs)
    (st : TransState) (s : SamplerInfo)
    (hl : a.lod_mode = 0 ∨ a.lod_mode = 2 ∨ a.lod_mode = 3)
    (hs : ctx.samplers (smpSrc1 ctx a.src1_n a.src1_bank a.src1_ext).num
      = some s)
    (hload : ctx.loadOk
      (smpSrc0 ctx a.src0_n a.src0_bank a.src0_ext a.src0_type)
      (smpCoordMask (a.dim + 1)) 0 = false) :
    smpA ctx a st = (false,
      { st with
        loads := st.loads ++
          [(smpSrc0 ctx a.src0_n a.src0_bank a.src0_ext a.src0_type,
            smpCoordMask (a.dim + 1), 0)],
        logs := st.logs ++ [LogEvent.coordNotLoaded] }) ∧
    translateProgram ctx (a :: rest) st = translateProgram ctx rest
      { st with
        loads := st.loads ++
          [(smpSrc0 ctx a.src0_n a.src0_bank a.src0_ext a.src0_type,
            smpCoordMask (a.dim + 1), 0)],
        logs := st.logs ++ [LogEvent.coordNotLoaded] } := by
  have h1 : smpA ctx a st = (false,
      { st with
        loads := st.loads ++
          [(smpSrc0 ctx a.src0_n a.src0_bank a.src0_ext a.src0_type,
            smpCoordMask (a.dim + 1), 0)],
        logs := st.logs ++ [LogEvent.coordNotLoaded] }) := by
    unfold smpA smp smpCore
    rcases hl with h | h | h <;>
      simp [h, hs, loadOperand, hload, logEvent]
  exact ⟨h1, by simp [translateProgram, h1]⟩

/-- C5: a 1-dimensional SMP sample (encoded `dim = 0`) loads its coordinate
with component mask 0b0001, and the coordinate handed to the fetch emitter
is exactly the 2-component composite of the loaded value and the floating
constant 0, typed F32. -/
theorem C5_one_dim_coordinate (ctx : Ctx)
    (pred skipinv nosched syncstart minpack src0_ext src1_ext src2_ext
      fconv_type mask_count lod_mode : Nat) (dest_use_pa : Bool)
    (sb_mode src0_type src0_bank drc_sel src1_bank src2_bank
      dest_n src0_n src1_n src2_n : Nat) (st : TransState) (s : SamplerInfo)
    (hl : lod_mode = 0 ∨ lod_mode = 2 ∨ lod_mode = 3)
    (hs : ctx.samplers (smpSrc1 ctx src1_n src1_bank src1_ext).num = some s)
    (hload : ctx.loadOk
      (smpSrc0 ctx src0_n src0_bank src0_ext src0_type) 1 0 = true) :
    ((smp ctx pred skipinv nosched syncstart minpack src0_ext src1_ext
          src2_ext fconv_type mask_count 0 lod_mode dest_use_pa sb_mode
          src0_type src0_bank drc_sel src1_bank src2_bank dest_n src0_n
          src1_n src2_n st).2.loads.drop st.loads.length).head?
      = some (smpSrc0 ctx src0_n src0_bank src0_ext src0_type, 1, 0) ∧
    ((smp ctx pred skipinv nosched syncstart minpack src0_ext src1_ext
          src2_ext fconv_type mask_count 0 lod_mode dest_use_pa sb_mode
          src0_type src0_bank drc_sel src1_bank src2_bank dest_n src0_n
          src1_n src2_n st).2.fetches.drop st.fetches.length).map
        (fun f => (f.tex, f.coordVal, f.coordType, f.lodMode))
      = [(s.id,
          Val.compositeConstruct2
            (Val.loaded (smpSrc0 ctx src0_n src0_bank src0_ext src0_type) 1 0)
            (Val.floatConst 0),
          DataType.F32, lod_mode)] := by
  rcases hl with rfl | rfl | rfl <;>
    constructor <;>
    · unfold smp smpCore
      simp only [smpCoordMask]
      norm_num
      simp [hs, loadOperand, hload, smpLoadExtras, do_fetch_texture,
        storeOperand, logEvent, List.drop_left, List.append_assoc]
      try (split <;> try simp [storeOperand, logEvent, List.drop_left])
      all_goals exact List.getElem_of_append rfl rfl

/-- C6: an SMP instruction in GRADIENT mode loads, for 2D samples, the two
gradient extras from source-2 with component masks 0b0011 and 0b1100; for
3D samples, two overlapping 3-component slices of the same source-2 operand
with mask 0b0111, the second at secondary offset 1. -/
theorem C6_gradient_extra_loads (ctx : Ctx)
    (pred skipinv nosched syncstart minpack src0_ext src1_ext src2_ext
      fconv_type mask_count : Nat) (dest_use_pa : Bool)
    (sb_mode src0_type src0_bank drc_sel src1_bank src2_bank
      dest_n src0_n src1_n src2_n : Nat) (st : TransState) (s : SamplerInfo)
    (hs : ctx.samplers (smpSrc1 ctx src1_n src1_bank src1_ext).num = some s)
    (h2 : ctx.loadOk
      (smpSrc0 ctx src0_n src0_bank src0_ext src0_type) 3 0 = true)
    (h3 : ctx.loadOk
      (smpSrc0 ctx src0_n src0_bank src0_ext src0_type) 7 0 = true) :
    (smp ctx pred skipinv nosched syncstart minpack src0_ext src1_ext
        src2_ext fconv_type mask_count 1 3 dest_use_pa sb_mode src0_type
        src0_bank drc_sel src1_bank src2_bank dest_n src0_n src1_n
        src2_n st).2.loads
      = st.loads ++
        [(smpSrc0 ctx src0_n src0_bank src0_ext src0_type, 3, 0),
         (smpSrc2 ctx src2_n src2_bank src2_ext
            (smpSrc0 ctx src0_n src0_bank src0_ext src0_type).type, 3, 0),
         (smpSrc2 ctx src2_n src2_bank src2_ext
            (smpSrc0 ctx src0_n src0_bank src0_ext src0_type).type, 12, 0)] ∧
    (smp ctx pred skipinv nosched syncstart minpack src0_ext src1_ext
        src2_ext fconv_type mask_count 2 3 dest_use_pa sb_mode src0_type
        src0_bank drc_sel src1_bank src2_bank dest_n src0_n src1_n
        src2_n st).2.loads
      = st.loads ++
        [(smpSrc0 ctx src0_n src0_bank src0_ext src0_type, 7, 0),
         (smpSrc2 ctx src2_n src2_bank src2_ext
            (smpSrc0 ctx src0_n src0_bank src0_ext src0_type).type, 7, 0),
         (smpSrc2 ctx src2_n src2_bank src2_ext
            (smpSrc0 ctx src0_n src0_bank src0_ext src0_type).type, 7, 1)] := by
  constructor <;>
  · unfold smp smpCore
    simp only [smpCoordMask]
    norm_num
    simp [hs, loadOperand, h2, h3, smpLoadExtras, do_fetch_texture,
      storeOperand, logEvent, List.append_assoc]
    try split <;> simp [storeOperand, logEvent, List.append_assoc]

theorem sampleShape_fetchSampleVal_isSome (tex c : Val) (lm : Nat)
    (e1 e2 : Val) (h : lm = 2 ∨ lm = 3 ∨ e1 = Val.noResult) :
    (sampleShape (fetchSampleVal tex c lm e1 e2)).isSome = true := by
  unfold fetchSampleVal
  by_cases h1 : e1 = Val.noResult
  · by_cases h4 : lm = 4 <;> simp [h1, h4, sampleShape]
  · rcases h with rfl | rfl | h
    · simp [h1, sampleShape]
    · simp [h1, sampleShape]
    · exact absurd h h1

/-- C8: in both handlers the destination write mask is
`(1 <<< component_count) - 1` for the bound resource's component count, and
the SMP handler behaves identically for the sideband modes 0, 1 and 3,
storing the raw sampling result (a sampling instruction, not a converted
value) once under that mask. -/
theorem C8_write_mask_and_sideband (ctx : Ctx)
    (pred skipinv nosched syncstart minpack src0_ext src1_ext src2_ext
      fconv_type mask_count dim lod_mode : Nat) (dest_use_pa : Bool)
    (src0_type src0_bank drc_sel src1_bank src2_bank
      dest_n src0_n src1_n src2_n : Nat) (st : TransState) (s : SamplerInfo)
    (q : TextureQueryInfo)
    (hl : lod_mode = 0 ∨ lod_mode = 2 ∨ lod_mode = 3)
    (hs : ctx.samplers (smpSrc1 ctx src1_n src1_bank src1_ext).num = some s)
    (hload : ctx.loadOk (smpSrc0 ctx src0_n src0_bank src0_ext src0_type)
      (smpCoordMask (dim + 1)) 0 = true) :
    smp ctx pred skipinv nosched syncstart minpack src0_ext src1_ext src2_ext
        fconv_type mask_count dim lod_mode dest_use_pa 0 src0_type src0_bank
        drc_sel src1_bank src2_bank dest_n src0_n src1_n src2_n st
      = smp ctx pred skipinv nosched syncstart minpack src0_ext src1_ext
          src2_ext fconv_type mask_count dim lod_mode dest_use_pa 1 src0_type
          src0_bank drc_sel src1_bank src2_bank dest_n src0_n src1_n
          src2_n st ∧
    smp ctx pred skipinv nosched syncstart minpack src0_ext src1_ext src2_ext
        fconv_type mask_count dim lod_mode dest_use_pa 0 src0_type src0_bank
        drc_sel src1_bank src2_bank dest_n src0_n src1_n src2_n st
      = smp ctx pred skipinv nosched syncstart minpack src0_ext src1_ext
          src2_ext fconv_type mask_count dim lod_mode dest_use_pa 3 src0_type
          src0_bank drc_sel src1_bank src2_bank dest_n src0_n src1_n
          src2_n st ∧
    ((smp ctx pred skipinv nosched syncstart minpack src0_ext src1_ext
          src2_ext fconv_type mask_count dim lod_mode dest_use_pa 0 src0_type
          src0_bank drc_sel src1_bank src2_bank dest_n src0_n src1_n
          src2_n st).2.stores.drop st.stores.length).map
        (fun p => (p.1, (sampleShape p.2.1).isSome, p.2.2))
      = [(smpDest dest_use_pa dest_n fconv_type s, true,
          (1 <<< s.component_count) - 1)] ∧
    ((do_texture_query_single ctx st q).stores.drop st.stores.length).map
        (fun p => (p.1, p.2.2))
      = [({ bank := RegisterBank.PRIMATTR, num := q.dest_offset,
            type := queryStoreType q, swizzle := SWIZZLE_CHANNEL_4_DEFAULT },
          (1 <<< q.component_count) - 1)] := by
  refine ⟨rfl, rfl, ?_, ?_⟩
  · rcases hl with rfl | rfl | rfl <;>
    · unfold smp smpCore
      by_cases hd : dim + 1 = 1
      · rw [hd] at hload
        simp [hd, hs, loadOperand, hload, smpLoadExtras, do_fetch_texture,
          storeOperand, logEvent, List.drop_left, List.append_assoc,
          is_integer_data_type, sampleShape_fetchSampleVal_isSome]
        try (split <;> simp [sampleShape_fetchSampleVal_isSome])
      · simp [hd, hs, loadOperand, hload, smpLoadExtras, do_fetch_texture,
          storeOperand, logEvent, List.drop_left, List.append_assoc,
          is_integer_data_type, sampleShape_fetchSampleVal_isSome]
        try (split <;> simp [sampleShape_fetchSampleVal_isSome])
  · unfold do_texture_query_single
    by_cases hp : 0 ≤ q.prod_pos <;>
      simp [hp, do_fetch_texture, storeOperand, List.drop_left]

/-- C10: an SMP instruction whose 2-bit `dim` field holds the encoded value
3 (normalized dimensionality 4, outside the documented 1D/2D/3D range) is
not rejected: the coordinate is loaded with the default 2D mask 0b0011, no
zero Y component is synthesized, and in GRADIENT mode neither gradient
extra is loaded, so the emitted sampling instruction falls through to the
plain implicit-LOD variant. -/
theorem C10_dim4_falls_through (ctx : Ctx)
    (pred skipinv nosched syncstart minpack src0_ext src1_ext src2_ext
      fconv_type mask_count : Nat) (dest_use_pa : Bool)
    (src0_type src0_bank drc_sel src1_bank src2_bank
      dest_n src0_n src1_n src2_n : Nat) (st : TransState) (s : SamplerInfo)
    (hs : ctx.samplers (smpSrc1 ctx src1_n src1_bank src1_ext).num = some s)
    (hload : ctx.loadOk
      (smpSrc0 ctx src0_n src0_bank src0_ext src0_type) 3 0 = true)
    (hp : ctx.isPointer
      (Val.loaded (smpSrc0 ctx src0_n src0_bank src0_ext src0_type) 3 0)
      = false) :
    smp ctx pred skipinv nosched syncstart minpack src0_ext src1_ext src2_ext
        fconv_type mask_count 3 3 dest_use_pa 0 src0_type src0_bank drc_sel
        src1_bank src2_bank dest_n src0_n src1_n src2_n st
      = (true,
        { st with
          ops := st.ops ++
            [Val.createLoad s.id,
             Val.imageSampleImplicitLod (Val.createLoad s.id)
               (Val.loaded
                 (smpSrc0 ctx src0_n src0_bank src0_ext src0_type) 3 0)],
          loads := st.loads ++
            [(smpSrc0 ctx src0_n src0_bank src0_ext src0_type, 3, 0)],
          stores := st.stores ++
            [(smpDest dest_use_pa dest_n fconv_type s,
              Val.imageSampleImplicitLod (Val.createLoad s.id)
                (Val.loaded
                  (smpSrc0 ctx src0_n src0_bank src0_ext src0_type) 3 0),
              (1 <<< s.component_count) - 1)],
          fetches := st.fetches ++
            [⟨s.id,
              Val.loaded (smpSrc0 ctx src0_n src0_bank src0_ext src0_type) 3 0,
              DataType.F32, DataType.F32, 3, Val.noResult, Val.noResult⟩] }) := by
  unfold smp smpCore
  simp [hs, loadOperand, hload, smpCoordMask, smpLoadExtras, do_fetch_texture,
    fetchCoordOps, fetchUnpackOps, fetchCoordId, fetchUnpackedCoord,
    fetchSampleOps, fetchSampleVal, hp, storeOperand, is_integer_data_type]

/-! ## Witnesses -/

/-- Witness for C4 at a concrete environment with an empty sampler table. -/
theorem C4_unbound_sampler_witness :
    ((0 : Nat) = 0 ∨ (0 : Nat) = 2 ∨ (0 : Nat) = 3) ∧
    ctxNoSampler.samplers (smpSrc1 ctxNoSampler 5 0 0).num = none ∧
    smp ctxNoSampler 0 0 0 0 0 0 0 0 0 0 1 0 true 0 0 0 0 0 0 9 4 5 6
        initState
      = (true, { initState with
          logs := initState.logs ++ [LogEvent.samplerNotExist] }) :=
  ⟨Or.inl rfl, by decide,
    C4_unbound_sampler ctxNoSampler 0 0 0 0 0 0 0 0 0 0 1 0 true 0 0 0 0 0 0
      9 4 5 6 initState (Or.inl rfl) (by decide)⟩

/-- Witness for C5 at a concrete environment: a 1D implicit-LOD sample. -/
theorem C5_one_dim_coordinate_witness :
    ((0 : Nat) = 0 ∨ (0 : Nat) = 2 ∨ (0 : Nat) = 3) ∧
    ctxW.samplers (smpSrc1 ctxW 5 0 0).num = some samplerW ∧
    ctxW.loadOk (smpSrc0 ctxW 4 0 0 0) 1 0 = true ∧
    (((smp ctxW 0 0 0 0 0 0 0 0 0 0 0 0 true 0 0 0 0 0 0 9 4 5 6
          initState).2.loads.drop initState.loads.length).head?
        = some (smpSrc0 ctxW 4 0 0 0, 1, 0) ∧
      ((smp ctxW 0 0 0 0 0 0 0 0 0 0 0 0 true 0 0 0 0 0 0 9 4 5 6
          initState).2.fetches.drop initState.fetches.length).map
          (fun f => (f.tex, f.coordVal, f.coordType, f.lodMode))
        = [(samplerW.id,
            Val.compositeConstruct2 (Val.loaded (smpSrc0 ctxW 4 0 0 0) 1 0)
              (Val.floatConst 0), DataType.F32, 0)]) :=
  ⟨Or.inl rfl, by decide, by decide,
    C5_one_dim_coordinate ctxW 0 0 0 0 0 0 0 0 0 0 0 true 0 0 0 0 0 0 9 4 5 6
      initState samplerW (Or.inl rfl) (by decide) (by decide)⟩

/-- Witness for C6 at a concrete environment: 2D and 3D gradient samples. -/
theorem C6_gradient_extra_loads_witness :
    ctxW.samplers (smpSrc1 ctxW 5 0 0).num = some samplerW ∧
    ctxW.loadOk (smpSrc0 ctxW 4 0 0 0) 3 0 = true ∧
    ctxW.loadOk (smpSrc0 ctxW 4 0 0 0) 7 0 = true ∧
    ((smp ctxW 0 0 0 0 0 0 0 0 0 0 1 3 true 0 0 0 0 0 0 9 4 5 6
        initState).2.loads
      = initState.loads ++
        [(smpSrc0 ctxW 4 0 0 0, 3, 0),
         (smpSrc2 ctxW 6 0 0 (smpSrc0 ctxW 4 0 0 0).type, 3, 0),
         (smpSrc2 ctxW 6 0 0 (smpSrc0 ctxW 4 0 0 0).type, 12, 0)] ∧
     (smp ctxW 0 0 0 0 0 0 0 0 0 0 2 3 true 0 0 0 0 0 0 9 4 5 6
        initState).2.loads
      = initState.loads ++
        [(smpSrc0 ctxW 4 0 0 0, 7, 0),
         (smpSrc2 ctxW 6 0 0 (smpSrc0 ctxW 4 0 0 0).type, 7, 0),
         (smpSrc2 ctxW 6 0 0 (smpSrc0 ctxW 4 0 0 0).type, 7, 1)]) :=
  ⟨by decide, by decide, by decide,
    C6_gradient_extra_loads ctxW 0 0 0 0 0 0 0 0 0 0 true 0 0 0 0 0 0 9 4 5 6
      initState samplerW (by decide) (by decide) (by decide)⟩

/-- Witness for C7 at a concrete sampler, query record and environment. -/
theorem C7_unk_type_resolution_witness :
    tb_dest_fmt 1 = DataType.UNK ∧
    samplerW.component_type ≠ DataType.UNK ∧
    queryW.store_type = DataType.UNK ∧
    queryW.component_type ≠ DataType.UNK ∧
    (smpDestType 1 samplerW = samplerW.component_type ∧
     smpDestType 1 samplerW ≠ DataType.UNK ∧
     queryStoreType queryW = queryW.component_type ∧
     queryStoreType queryW ≠ DataType.UNK ∧
     ((do_texture_query_single ctxW initState queryW).fetches.drop
         initState.fetches.length).all
       (fun f => decide (f.destType = queryW.component_type)) = true) :=
  ⟨rfl, by decide, rfl, by decide,
    C7_unk_type_resolution ctxW initState 1 samplerW queryW rfl (by decide)
      rfl (by decide)⟩

/-- Witness for C8 at a concrete environment: a 2D implicit-LOD sample and
the concrete query record. -/
theorem C8_write_mask_and_sideband_witness :
    ((0 : Nat) = 0 ∨ (0 : Nat) = 2 ∨ (0 : Nat) = 3) ∧
    ctxW.samplers (smpSrc1 ctxW 5 0 0).num = some samplerW ∧
    ctxW.loadOk (smpSrc0 ctxW 4 0 0 0) (smpCoordMask (1 + 1)) 0 = true ∧
    (smp ctxW 0 0 0 0 0 0 0 0 0 0 1 0 true 0 0 0 0 0 0 9 4 5 6 initState
        = smp ctxW 0 0 0 0 0 0 0 0 0 0 1 0 true 1 0 0 0 0 0 9 4 5 6
            initState ∧
     smp ctxW 0 0 0 0 0 0 0 0 0 0 1 0 true 0 0 0 0 0 0 9 4 5 6 initState
        = smp ctxW 0 0 0 0 0 0 0 0 0 0 1 0 true 3 0 0 0 0 0 9 4 5 6
            initState ∧
     ((smp ctxW 0 0 0 0 0 0 0 0 0 0 1 0 true 0 0 0 0 0 0 9 4 5 6
          initState).2.stores.drop initState.stores.length).map
         (fun p => (p.1, (sampleShape p.2.1).isSome, p.2.2))
       = [(smpDest true 9 0 samplerW, true,
           (1 <<< samplerW.component_count) - 1)] ∧
     ((do_texture_query_single ctxW initState queryW).stores.drop
         initState.stores.length).map (fun p => (p.1, p.2.2))
       = [({ bank := RegisterBank.PRIMATTR, num := queryW.dest_offset,
             type := queryStoreType queryW,
             swizzle := SWIZZLE_CHANNEL_4_DEFAULT },
           (1 <<< queryW.component_count) - 1)]) :=
  ⟨Or.inl rfl, by decide, by decide,
    C8_write_mask_and_sideband ctxW 0 0 0 0 0 0 0 0 0 0 1 0 true 0 0 0 0 0
      9 4 5 6 initState samplerW queryW (Or.inl rfl) (by decide) (by decide)⟩

/-- Witness for C9 at a concrete environment in which every load fails. -/
theorem C9_coord_load_failure_witness :
    (argsW.lod_mode = 0 ∨ argsW.lod_mode = 2 ∨ argsW.lod_mode = 3) ∧
    ctxNoLoad.samplers
        (smpSrc1 ctxNoLoad argsW.src1_n argsW.src1_bank argsW.src1_ext).num
      = some samplerW ∧
    ctxNoLoad.loadOk
        (smpSrc0 ctxNoLoad argsW.src0_n argsW.src0_bank argsW.src0_ext
          argsW.src0_type) (smpCoordMask (argsW.dim + 1)) 0 = false ∧
    (smpA ctxNoLoad argsW initState = (false,
        { initState with
          loads := initState.loads ++
            [(smpSrc0 ctxNoLoad argsW.src0_n argsW.src0_bank argsW.src0_ext
                argsW.src0_type, smpCoordMask (argsW.dim + 1), 0)],
          logs := initState.logs ++ [LogEvent.coordNotLoaded] }) ∧
     translateProgram ctxNoLoad (argsW :: []) initState
        = translateProgram ctxNoLoad []
          { initState with
            loads := initState.loads ++
              [(smpSrc0 ctxNoLoad argsW.src0_n argsW.src0_bank argsW.src0_ext
                  argsW.src0_type, smpCoordMask (argsW.dim + 1), 0)],
            logs := initState.logs ++ [LogEvent.coordNotLoaded] }) :=
  ⟨Or.inl rfl, by decide, by decide,
    C9_coord_load_failure ctxNoLoad argsW [] initState samplerW (Or.inl rfl)
      (by decide) (by decide)⟩

/-- Witness for C10 at a concrete environment: encoded `dim = 3`, GRADIENT
mode. -/
theorem C10_dim4_falls_through_witness :
    ctxW.samplers (smpSrc1 ctxW 5 0 0).num = some samplerW ∧
    ctxW.loadOk (smpSrc0 ctxW 4 0 0 0) 3 0 = true ∧
    ctxW.isPointer (Val.loaded (smpSrc0 ctxW 4 0 0 0) 3 0) = false ∧
    smp ctxW 0 0 0 0 0 0 0 0 0 0 3 3 true 0 0 0 0 0 0 9 4 5 6 initState
      = (true,
        { initState with
          ops := initState.ops ++
            [Val.createLoad samplerW.id,
             Val.imageSampleImplicitLod (Val.createLoad samplerW.id)
               (Val.loaded (smpSrc0 ctxW 4 0 0 0) 3 0)],
          loads := initState.loads ++ [(smpSrc0 ctxW 4 0 0 0, 3, 0)],
          stores := initState.stores ++
            [(smpDest true 9 0 samplerW,
              Val.imageSampleImplicitLod (Val.createLoad samplerW.id)
                (Val.loaded (smpSrc0 ctxW 4 0 0 0) 3 0),
              (1 <<< samplerW.component_count) - 1)],
          fetches := initState.fetches ++
            [⟨samplerW.id, Val.loaded (smpSrc0 ctxW 4 0 0 0) 3 0,
              DataType.F32, DataType.F32, 3, Val.noResult, Val.noResult⟩] }) :=
  ⟨by decide, by decide, by decide,
    C10_dim4_falls_through ctxW 0 0 0 0 0 0 0 0 0 0 true 0 0 0 0 0 9 4 5 6
      initState samplerW (by decide) (by decide) (by decide)⟩

end Vita3K
